import Mathlib

/-!
# AIO comment toolkit: credential capture and comment gateway

A shallow embedding of `src/CommentToolkit/background.js` and of the word filter
and the rendering loop of `src/CommentToolkit/index.js`.

* The `onBeforeSendHeaders` listener is a pure function from the observed
  request to the list of `chrome.storage.local.set` calls it makes; the store
  is threaded explicitly.
* The three message handlers (`fetchComments`, `sendReply`, `postComment`) are
  functions of the outcome of `chrome.storage.local.get`, of the remote side
  (a function from the request passed to `fetch` to what `fetch` does with it)
  and of the message; they return the value handed to `sendResponse` together
  with the list of `fetch` invocations, in order.
* JS objects whose keys are fixed by the source are structures with optional
  fields (`none` is an absent key); the header and payload object literals are
  association lists in insertion order, with `JSValue.undefined` for a property
  whose value is `undefined`.
* A request body is the JSON document denoted by the string that
  `JSON.stringify` produces, not the string itself.
* The string built-ins the popup page calls (`toLowerCase`, `new RegExp`,
  `replace`) are a parameter, `JSRuntime`; a function that can throw returns
  `Except`, and a rendered DOM element is recorded by what it is built from.
-/

namespace CommentToolkit

/-! ## JSON documents and the JS values the handlers build -/

/-- A JSON document: what `response.json()` yields and what a request body denotes. -/
inductive Json where
  | null
  | bool (b : Bool)
  | num (n : Int)
  | str (s : String)
  | arr (items : List Json)
  | obj (props : List (String × Json))

/-- The JS values that occur in the object literals of `background.js`:
`undefined`, numbers, strings and object literals (properties in insertion order). -/
inductive JSValue where
  | undefined
  | num (n : Int)
  | str (s : String)
  | obj (props : List (String × JSValue))

mutual
/-- `JSON.stringify(v)` as a document: `none` is the result `undefined`. -/
def stringify : JSValue → Option Json
  | .undefined => none
  | .num n => some (.num n)
  | .str s => some (.str s)
  | .obj ps => some (.obj (stringifyProps ps))
termination_by structural v => v
/-- Serialisation of an object's properties, in order. -/
def stringifyProps : List (String × JSValue) → List (String × Json)
  | [] => []
  | p :: rest => stringifyProp p (stringifyProps rest)
termination_by structural ps => ps
/-- One property: it is left out when its value serialises to `undefined`. -/
def stringifyProp : String × JSValue → List (String × Json) → List (String × Json)
  | (k, v), acc =>
    match stringify v with
    | none => acc
    | some j => (k, j) :: acc
termination_by structural p => p
end

/-- A stored or requested string as a JS value; an absent one reads as `undefined`. -/
def ofOption : Option String → JSValue
  | some s => .str s
  | none => .undefined

/-- JS truthiness of a value that is a string or `undefined`: only a non-empty
string is truthy. -/
def truthy : Option String → Bool
  | some s => s != ""
  | none => false

/-- Property names of a JSON object (empty for any other document). -/
def Json.keys : Json → List String
  | .obj props => props.map Prod.fst
  | _ => []

/-! ## Credential capture (`chrome.webRequest.onBeforeSendHeaders`) -/

/-- One entry of `details.requestHeaders`: a header name and its text value. -/
structure HttpHeader where
  name : String
  value : String
  deriving DecidableEq, Repr

/-- The `details` object the listener receives. The listener reads only
`requestHeaders`; the browser calls it only for requests matching the `urls` filter. -/
structure Details where
  requestHeaders : List HttpHeader
  deriving DecidableEq, Repr

/-- The record in `chrome.storage.local`, restricted to the three keys the
program uses; `none` is an absent key. -/
structure Store where
  apiToken : Option String := none
  viewerId : Option String := none
  xPin : Option String := none
  deriving DecidableEq, Repr

/-- The `updates` object of the listener; `none` is a key that was not assigned. -/
structure Updates where
  apiToken : Option String := none
  viewerId : Option String := none
  xPin : Option String := none
  deriving DecidableEq, Repr

/-- `String.prototype.toLowerCase` on header names (ASCII tokens). -/
def toLowerCase (s : String) : String :=
  String.mk (s.data.map Char.toLower)

/-- `details.requestHeaders.find(header => header.name.toLowerCase() === name)`. -/
def findHeader (requestHeaders : List HttpHeader) (name : String) : Option HttpHeader :=
  requestHeaders.find? (fun header => toLowerCase header.name == name)

/-- `Object.keys(updates)`: the assigned keys, in assignment order. -/
def Updates.keys (u : Updates) : List String :=
  (if u.apiToken.isSome then ["apiToken"] else []) ++
  (if u.viewerId.isSome then ["viewerId"] else []) ++
  (if u.xPin.isSome then ["xPin"] else [])

/-- The `updates` object as it stands when the listener reaches its final `if`. -/
def stagedUpdates (details : Details) : Updates :=
  let updates : Updates := {}
  let authHeader := findHeader details.requestHeaders "authorization"
  let updates :=
    match authHeader with
    | some h => { updates with apiToken := some h.value }
    | none => updates
  let viewerHeader := findHeader details.requestHeaders "x-viewer-id"
  let updates :=
    match viewerHeader with
    | some h => { updates with viewerId := some h.value }
    | none => updates
  let viewerPin := findHeader details.requestHeaders "x-pin"
  let updates :=
    match viewerPin with
    | some h => { updates with xPin := some h.value }
    | none => { updates with xPin := some "" }
  updates

/-- The listener: the arguments of the `chrome.storage.local.set` calls it makes. -/
def onBeforeSendHeaders (details : Details) : List Updates :=
  let updates := stagedUpdates details
  if updates.keys.length > 0 then [updates] else []

/-- `chrome.storage.local.set(updates)`: every assigned key is overwritten, the
others are kept. -/
def storageSet (store : Store) (updates : Updates) : Store :=
  { apiToken := match updates.apiToken with
      | some v => some v
      | none => store.apiToken
    viewerId := match updates.viewerId with
      | some v => some v
      | none => store.viewerId
    xPin := match updates.xPin with
      | some v => some v
      | none => store.xPin }

/-- The store after the listener has handled one matching request. -/
def capture (store : Store) (details : Details) : Store :=
  (onBeforeSendHeaders details).foldl storageSet store

/-- The store after the listener has handled a sequence of matching requests, in order. -/
def captureAll (store : Store) (requests : List Details) : Store :=
  requests.foldl capture store

/-- The value of the Authorization header a request carries (name matched
case-insensitively), if it carries one. -/
def authorizationOf (details : Details) : Option String :=
  (details.requestHeaders.find? (fun h => toLowerCase h.name == "authorization")).map
    (fun h => h.value)

/-- The Authorization value of the last request of the sequence that carried one:
the last of the values carried, in the order of the requests. -/
def lastAuthorization (requests : List Details) : Option String :=
  (requests.filterMap authorizationOf).getLast?

/-- The value of the x-pin header a request carries (name matched
case-insensitively), if it carries one. -/
def xPinOf (details : Details) : Option String :=
  (details.requestHeaders.find? (fun h => toLowerCase h.name == "x-pin")).map
    (fun h => h.value)

/-! ## Comment gateway (`chrome.runtime.onMessage`) -/

/-- What the callback of `chrome.storage.local.get(["apiToken", "viewerId", "xPin"], ...)`
finds: either `chrome.runtime.lastError` is set (the read failed, with that
message), or it is unset and `result` holds the stored credential set. -/
inductive StorageGet where
  | failed (lastError : String)
  | ok (result : Store)

/-- The `Response` object of the Fetch API, as far as the handlers read it.
`json` is the outcome of `await response.json()`: the parsed body, or the
message of the error it throws. -/
structure Response where
  status : Nat
  statusText : String
  json : Except String Json

/-- The getter `response.ok`: the status is in the range 200..299. -/
def Response.ok (response : Response) : Bool :=
  200 ≤ response.status && response.status ≤ 299

/-- One invocation of `fetch(url, { method, headers, body })`. `headers` is the
object literal as the handler builds it; `body` is `JSON.stringify(payload)`. -/
structure Request where
  url : String
  method : String
  headers : List (String × JSValue)
  body : Option Json

/-- What `await fetch(...)` does: throw an error with a message (no response), or
yield a response. -/
inductive FetchReply where
  | threw (message : String)
  | responded (response : Response)

/-- The object handed to `sendResponse`: `{ success: true, data }` or
`{ success: false, error }`. -/
inductive Outcome where
  | success (data : Json)
  | failure (error : String)

/-- The `success` field of an outcome. -/
def Outcome.isSuccess : Outcome → Bool
  | .success _ => true
  | .failure _ => false

/-- The result of running a handler: what it produced and the `fetch`
invocations it made, in order. -/
structure Run (α : Type) where
  result : α
  calls : List Request

/-- The header value the Fetch API puts on the wire for a property of the
`headers` object: the property value converted to a string. -/
def wireValue : JSValue → String
  | .undefined => "undefined"
  | .num n => toString n
  | .str s => s
  | .obj _ => "[object Object]"

/-- The header list a request puts on the wire. -/
def Request.wireHeaders (req : Request) : List (String × String) :=
  req.headers.map (fun p => (p.1, wireValue p.2))

/-- The values a request puts on the wire under a header name (matched
case-insensitively, `name` given in lower case), in order. -/
def Request.headerValues (req : Request) (name : String) : List String :=
  (req.wireHeaders.filter (fun p => toLowerCase p.1 == name)).map Prod.snd

def commentSearchUrl : String :=
  "https://fotf.my.site.com/aio/services/apexrest/v1/comment/search"

def commentUrl : String :=
  "https://fotf.my.site.com/aio/services/apexrest/v1/comment"

/-- The request `fetchComments` builds (payload and headers, lines 60-87 of
`background.js`), from the credential set read and the arguments after defaults. -/
def fetchCommentsRequest (result : Store) (relatedToId : String)
    (pageNumber pageSize : Int) : Request :=
  let payload := JSValue.obj [
    ("orderBy", .str "CreatedDate DESC"),
    ("pageNumber", .num pageNumber),
    ("pageSize", .num pageSize),
    ("relatedToId", .str relatedToId)]
  let headers : List (String × JSValue) := [
    ("Authorization", ofOption result.apiToken),
    ("Content-Type", .str "application/json"),
    ("x-experience-name", .str "Adventures In Odyssey")]
  let headers :=
    if truthy result.viewerId then headers ++ [("x-viewer-id", ofOption result.viewerId)]
    else headers
  let headers :=
    if result.xPin.isSome then headers ++ [("x-pin", ofOption result.xPin)]
    else headers
  { url := commentSearchUrl, method := "POST", headers := headers,
    body := stringify payload }

/-- The function `fetchComments(relatedToId, pageNumber = 1, pageSize = 20)`: the
promise resolves with the parsed body (`.ok`) or rejects with an error, of which
the caller reads the message (`.error`). An argument that is not supplied is `none`. -/
def fetchComments (get : StorageGet) (fetch : Request → FetchReply)
    (relatedToId : String) (pageNumber pageSize : Option Int) : Run (Except String Json) :=
  let pageNumber := pageNumber.getD 1
  let pageSize := pageSize.getD 20
  match get with
  | .failed lastError => ⟨.error lastError, []⟩
  | .ok result =>
    if !truthy result.apiToken then
      ⟨.error "No API token found in storage.", []⟩
    else
      let req := fetchCommentsRequest result relatedToId pageNumber pageSize
      match fetch req with
      | .threw message => ⟨.error message, [req]⟩
      | .responded response =>
        if !response.ok then
          ⟨.error ("Error fetching comments: " ++ response.statusText), [req]⟩
        else
          match response.json with
          | .ok data => ⟨.ok data, [req]⟩
          | .error message => ⟨.error message, [req]⟩

/-- The listener for `request.action === "fetchComments"`. -/
def onFetchComments (get : StorageGet) (fetch : Request → FetchReply)
    (relatedToId : String) (pageNumber pageSize : Option Int) : Run Outcome :=
  let run := fetchComments get fetch relatedToId pageNumber pageSize
  match run.result with
  | .ok data => ⟨.success data, run.calls⟩
  | .error message => ⟨.failure message, run.calls⟩

/-- The request the `sendReply` listener builds (lines 121-143). -/
def sendReplyRequest (result : Store) (commentId replyMessage : String) : Request :=
  let payload := JSValue.obj [
    ("comment", .obj [
      ("relatedToId", .str commentId),
      ("viewerProfileId", ofOption result.viewerId),
      ("message", .str replyMessage)]),
    ("message", .str replyMessage),
    ("relatedToId", .str commentId),
    ("viewerProfileId", ofOption result.viewerId)]
  { url := commentUrl, method := "POST",
    headers := [
      ("Authorization", ofOption result.apiToken),
      ("x-viewer-id", ofOption result.viewerId),
      ("Content-Type", .str "application/json"),
      ("x-experience-name", .str "Adventures In Odyssey")],
    body := stringify payload }

/-- The listener for `request.action === "sendReply"`. -/
def sendReply (get : StorageGet) (fetch : Request → FetchReply)
    (commentId replyMessage : String) : Run Outcome :=
  match get with
  | .failed _ => ⟨.failure "No API token found in storage.", []⟩
  | .ok result =>
    if !truthy result.apiToken then
      ⟨.failure "No API token found in storage.", []⟩
    else
      let req := sendReplyRequest result commentId replyMessage
      match fetch req with
      | .threw message => ⟨.failure message, [req]⟩
      | .responded response =>
        if response.status == 201 || response.ok then
          match response.json with
          | .ok data => ⟨.success data, [req]⟩
          | .error message => ⟨.failure message, [req]⟩
        else
          ⟨.failure ("Error sending reply: " ++ response.statusText), [req]⟩

/-- The request the `postComment` listener builds (lines 167-188). -/
def postCommentRequest (result : Store) (relatedToId commentMessage : String) : Request :=
  let payload := JSValue.obj [
    ("comment", .obj [
      ("relatedToId", .str relatedToId),
      ("viewerProfileId", ofOption result.viewerId),
      ("message", .str commentMessage)]),
    ("message", .str commentMessage),
    ("relatedToId", .str relatedToId),
    ("viewerProfileId", ofOption result.viewerId)]
  { url := commentUrl, method := "POST",
    headers := [
      ("Authorization", ofOption result.apiToken),
      ("x-viewer-id", ofOption result.viewerId),
      ("Content-Type", .str "application/json"),
      ("x-experience-name", .str "Adventures In Odyssey")],
    body := stringify payload }

/-- The listener for `request.action === "postComment"`. -/
def postComment (get : StorageGet) (fetch : Request → FetchReply)
    (relatedToId commentMessage : String) : Run Outcome :=
  match get with
  | .failed _ => ⟨.failure "No API token found in storage.", []⟩
  | .ok result =>
    if !truthy result.apiToken then
      ⟨.failure "No API token found in storage.", []⟩
    else
      let req := postCommentRequest result relatedToId commentMessage
      match fetch req with
      | .threw message => ⟨.failure message, [req]⟩
      | .responded response =>
        if response.status == 201 || response.ok then
          match response.json with
          | .ok data => ⟨.success data, [req]⟩
          | .error message => ⟨.failure message, [req]⟩
        else
          ⟨.failure ("Error posting comment: " ++ response.statusText), [req]⟩

/-- A message of the extension page, by its `action`: ids and message texts are
strings, the page arguments are integers or not supplied (`none`). -/
inductive Message where
  | fetchComments (relatedToId : String) (pageNumber pageSize : Option Int)
  | sendReply (commentId replyMessage : String)
  | postComment (relatedToId commentMessage : String)

/-- The three `chrome.runtime.onMessage` listeners together: each answers the
messages of its own action. -/
def onMessage (get : StorageGet) (fetch : Request → FetchReply) : Message → Run Outcome
  | .fetchComments relatedToId pageNumber pageSize =>
    onFetchComments get fetch relatedToId pageNumber pageSize
  | .sendReply commentId replyMessage => sendReply get fetch commentId replyMessage
  | .postComment relatedToId commentMessage => postComment get fetch relatedToId commentMessage

/-! ## Word filter and rendering of the popup page (`index.js`) -/

/-- The built-ins of the page's JS engine that the filter and the renderer call
on strings: `String.prototype.toLowerCase`, the constructor `new RegExp(source, flags)`
(the regular expression, or the message of the `SyntaxError` it throws) and
`text.replace(regex, replacement)`. -/
structure JSRuntime (RegExp : Type) where
  toLowerCase : String → String
  newRegExp : String → String → Except String RegExp
  replace : String → RegExp → String → String

/-- A comment as the API returns it: the fields the filter and the renderer
branch on, and the nested replies (`none` when the key `comments` is absent). -/
inductive Comment where
  | mk (id : String) (message : String) (viewerProfileId : String)
      (comments : Option (List Comment))

/-- The field `comment.id`. -/
def Comment.id : Comment → String
  | .mk id _ _ _ => id

/-- The field `comment.message`. -/
def Comment.message : Comment → String
  | .mk _ message _ _ => message

/-- The field `comment.viewerProfileId`. -/
def Comment.viewerProfileId : Comment → String
  | .mk _ _ viewerProfileId _ => viewerProfileId

/-- The field `comment.comments`. -/
def Comment.comments : Comment → Option (List Comment)
  | .mk _ _ _ comments => comments

/-- `s.includes(searchString)`: the search string occurs in `s` at some position. -/
def includes (s searchString : String) : Bool :=
  s.data.tails.any (fun t => searchString.data.isPrefixOf t)

mutual
/-- The function `commentContainsWord(comment, filterWord)`. -/
def commentContainsWord {R : Type} (js : JSRuntime R) : Comment → String → Bool
  | .mk _ message _ comments, filterWord =>
    if includes (js.toLowerCase message) filterWord then true
    else
      match comments with
      | some replies =>
        if replies.length > 0 then someContainsWord js replies filterWord else false
      | none => false
termination_by structural comment => comment
/-- The call `comments.some(reply => commentContainsWord(reply, filterWord))`. -/
def someContainsWord {R : Type} (js : JSRuntime R) : List Comment → String → Bool
  | [], _ => false
  | reply :: rest, filterWord =>
    commentContainsWord js reply filterWord || someContainsWord js rest filterWord
termination_by structural comments => comments
end

mutual
/-- A comment together with its nested replies at every depth, in document order. -/
def Comment.nodes : Comment → List Comment
  | .mk id message viewerProfileId comments =>
    .mk id message viewerProfileId comments ::
      (match comments with
        | some replies => nodesOfAll replies
        | none => [])
termination_by structural comment => comment
/-- The nodes of a list of comments. -/
def nodesOfAll : List Comment → List Comment
  | [] => []
  | reply :: rest => reply.nodes ++ nodesOfAll rest
termination_by structural comments => comments
end

/-- The function `highlightWord(text, word)`; `.error` is the exception it throws. -/
def highlightWord {R : Type} (js : JSRuntime R) (text word : String) : Except String String :=
  if word == "" then .ok text
  else
    match js.newRegExp ("(" ++ word ++ ")") "gi" with
    | .error message => .error message
    | .ok regex => .ok (js.replace text regex "<span style=\"color:#f9d548;\">$1</span>")

/-- How `renderComment` fills the message element. -/
inductive MessageContent where
  | innerHTML (html : String)
  | textContent (text : String)

/-- The element `renderComment` returns, by what it is built from: the class
name of the container, the comment whose fields fill the comment box, whether
the header is coloured as the viewer's own, the message element and the
elements of the replies container (empty when there is none). -/
inductive Rendered where
  | mk (className : String) (comment : Comment) (own : Bool) (message : MessageContent)
      (replies : List Rendered)

/-- The comment an element was rendered from. -/
def Rendered.comment : Rendered → Comment
  | .mk _ comment _ _ _ => comment

mutual
/-- The function `renderComment(comment, isReply, currentViewerId, filterWord)`;
`.error` is the exception it throws. -/
def renderComment {R : Type} (js : JSRuntime R) :
    Comment → Bool → Option String → String → Except String Rendered
  | .mk id message viewerProfileId comments, isReply, currentViewerId, filterWord =>
    let className := if isReply then "reply-container" else "comment-container"
    let own := truthy currentViewerId && some viewerProfileId == currentViewerId
    let content : Except String MessageContent :=
      if filterWord != "" then
        match highlightWord js message filterWord with
        | .error e => .error e
        | .ok html => .ok (.innerHTML html)
      else .ok (.textContent message)
    match content with
    | .error e => .error e
    | .ok content =>
      match comments with
      | some replies =>
        if replies.length > 0 then
          match renderReplies js replies currentViewerId filterWord with
          | .error e => .error e
          | .ok elements =>
            .ok (.mk className (.mk id message viewerProfileId comments) own content elements)
        else .ok (.mk className (.mk id message viewerProfileId comments) own content [])
      | none => .ok (.mk className (.mk id message viewerProfileId comments) own content [])
termination_by structural comment => comment
/-- The loop `comment.comments.forEach(reply => ...)` of `renderComment`. -/
def renderReplies {R : Type} (js : JSRuntime R) :
    List Comment → Option String → String → Except String (List Rendered)
  | [], _, _ => .ok []
  | reply :: rest, currentViewerId, filterWord =>
    match renderComment js reply true currentViewerId filterWord with
    | .error e => .error e
    | .ok element =>
      match renderReplies js rest currentViewerId filterWord with
      | .error e => .error e
      | .ok elements => .ok (element :: elements)
termination_by structural comments => comments
end

/-- The element `comments-container` after `renderCommentsWrapper`: its children,
and the exception that escaped the function, if one did. -/
structure Container where
  children : List Rendered
  thrown : Option String

/-- The constant `filtered` of `renderCommentsWrapper`. -/
def filtered {R : Type} (js : JSRuntime R) (comments : List Comment)
    (filterWord : String) : List Comment :=
  if filterWord != "" then
    comments.filter (fun c =>
      includes (js.toLowerCase c.message) filterWord ||
        (match c.comments with
          | some replies => replies.any (fun r => commentContainsWord js r filterWord)
          | none => false))
  else comments

/-- The loop `filtered.forEach(comment => ...)` on the emptied container: each
element is appended once `renderComment` has returned it. -/
def appendEach {R : Type} (js : JSRuntime R) :
    List Comment → Option String → String → Container
  | [], _, _ => { children := [], thrown := none }
  | comment :: rest, currentViewerId, filterWord =>
    match renderComment js comment false currentViewerId filterWord with
    | .error e => { children := [], thrown := some e }
    | .ok element =>
      let after := appendEach js rest currentViewerId filterWord
      { children := element :: after.children, thrown := after.thrown }

/-- The function `renderCommentsWrapper(comments, currentViewerId, filterWord)`. -/
def renderCommentsWrapper {R : Type} (js : JSRuntime R) (comments : List Comment)
    (currentViewerId : Option String) (filterWord : String) : Container :=
  appendEach js (filtered js comments filterWord) currentViewerId filterWord

/-- A runtime to evaluate examples with: ASCII lower-casing, a `RegExp`
constructor that throws on the pattern `(()` (an unterminated group) and keeps
the source of any other pattern, and a `replace` that leaves the text as it is. -/
def sampleRuntime : JSRuntime String where
  toLowerCase := toLowerCase
  newRegExp := fun source _ =>
    if source == "(()" then .error "Invalid regular expression: /(()/: Unterminated group"
    else .ok source
  replace := fun text _ _ => text

/-! ## Auxiliary facts -/

theorem truthy_of_nonempty {v : Option String} {token : String}
    (hv : v = some token) (hne : token ≠ "") : truthy v = true := by
  subst hv
  simp [truthy, hne]

theorem truthy_eq_false_of_missing {v : Option String}
    (h : v = none ∨ v = some "") : truthy v = false := by
  rcases h with h | h <;> subst h <;> simp [truthy]

theorem onBeforeSendHeaders_eq (details : Details) :
    onBeforeSendHeaders details = [stagedUpdates details] := by
  have hx : (stagedUpdates details).xPin.isSome = true := by
    unfold stagedUpdates
    cases findHeader details.requestHeaders "x-pin" <;> rfl
  have hk : (stagedUpdates details).keys.length > 0 := by
    simp [Updates.keys, hx]
  simp [onBeforeSendHeaders, hk]

theorem stagedUpdates_apiToken (details : Details) :
    (stagedUpdates details).apiToken = authorizationOf details := by
  unfold stagedUpdates authorizationOf findHeader
  cases details.requestHeaders.find? (fun h => toLowerCase h.name == "authorization") <;>
    cases List.find? (fun h => toLowerCase h.name == "x-viewer-id") details.requestHeaders <;>
    cases List.find? (fun h => toLowerCase h.name == "x-pin") details.requestHeaders <;> rfl

theorem stagedUpdates_xPin (details : Details) :
    (stagedUpdates details).xPin = some ((xPinOf details).getD "") := by
  unfold stagedUpdates xPinOf findHeader
  cases List.find? (fun h => toLowerCase h.name == "x-pin") details.requestHeaders <;> rfl

theorem capture_apiToken (store : Store) (details : Details) :
    (capture store details).apiToken =
      match authorizationOf details with
      | some v => some v
      | none => store.apiToken := by
  simp only [capture, onBeforeSendHeaders_eq, List.foldl, storageSet, stagedUpdates_apiToken]

theorem captureAll_apiToken (store : Store) (requests : List Details) :
    (captureAll store requests).apiToken =
      match lastAuthorization requests with
      | some v => some v
      | none => store.apiToken := by
  induction requests using List.reverseRecOn with
  | nil => rfl
  | append_singleton rest d ih =>
    have hstep : captureAll store (rest ++ [d]) = capture (captureAll store rest) d := by
      simp [captureAll]
    rw [hstep, capture_apiToken, ih]
    unfold lastAuthorization
    rw [List.filterMap_append]
    cases hd : authorizationOf d with
    | none => simp [List.filterMap, hd]
    | some v => simp [List.filterMap, hd]

theorem onFetchComments_calls (result : Store) (fetch : Request → FetchReply)
    (relatedToId : String) (pageNumber pageSize : Option Int)
    (ht : truthy result.apiToken = true) :
    (onMessage (.ok result) fetch (.fetchComments relatedToId pageNumber pageSize)).calls
      = [fetchCommentsRequest result relatedToId (pageNumber.getD 1) (pageSize.getD 20)] := by
  simp only [onMessage, onFetchComments, fetchComments, ht]
  cases fetch (fetchCommentsRequest result relatedToId (pageNumber.getD 1) (pageSize.getD 20)) with
  | threw message => rfl
  | responded response =>
    simp only [Bool.not_true, Bool.false_eq_true, if_false]
    cases response.ok <;> cases response.json <;> rfl

theorem sendReply_calls (result : Store) (fetch : Request → FetchReply)
    (commentId replyMessage : String) (ht : truthy result.apiToken = true) :
    (onMessage (.ok result) fetch (.sendReply commentId replyMessage)).calls
      = [sendReplyRequest result commentId replyMessage] := by
  simp only [onMessage, sendReply, ht]
  cases fetch (sendReplyRequest result commentId replyMessage) with
  | threw message => rfl
  | responded response =>
    simp only [Bool.not_true, Bool.false_eq_true, if_false]
    cases (response.status == 201 || response.ok) <;> cases response.json <;> rfl

theorem postComment_calls (result : Store) (fetch : Request → FetchReply)
    (relatedToId commentMessage : String) (ht : truthy result.apiToken = true) :
    (onMessage (.ok result) fetch (.postComment relatedToId commentMessage)).calls
      = [postCommentRequest result relatedToId commentMessage] := by
  simp only [onMessage, postComment, ht]
  cases fetch (postCommentRequest result relatedToId commentMessage) with
  | threw message => rfl
  | responded response =>
    simp only [Bool.not_true, Bool.false_eq_true, if_false]
    cases (response.status == 201 || response.ok) <;> cases response.json <;> rfl

theorem fetchCommentsRequest_xPin (result : Store) (relatedToId : String)
    (pageNumber pageSize : Int) :
    (fetchCommentsRequest result relatedToId pageNumber pageSize).headerValues "x-pin"
      = match result.xPin with
        | some v => [v]
        | none => [] := by
  have h1 : (toLowerCase "Authorization" == "x-pin") = false := by decide
  have h2 : (toLowerCase "Content-Type" == "x-pin") = false := by decide
  have h3 : (toLowerCase "x-experience-name" == "x-pin") = false := by decide
  have h4 : (toLowerCase "x-viewer-id" == "x-pin") = false := by decide
  have h5 : (toLowerCase "x-pin" == "x-pin") = true := by decide
  cases hx : result.xPin <;> cases hv : truthy result.viewerId <;>
    simp [fetchCommentsRequest, Request.headerValues, Request.wireHeaders, hx, hv,
      List.filter, h1, h2, h3, h4, h5, ofOption, wireValue]

theorem sendReplyRequest_xPin (result : Store) (commentId replyMessage : String) :
    (sendReplyRequest result commentId replyMessage).headerValues "x-pin" = [] := by
  have h1 : (toLowerCase "Authorization" == "x-pin") = false := by decide
  have h2 : (toLowerCase "Content-Type" == "x-pin") = false := by decide
  have h3 : (toLowerCase "x-experience-name" == "x-pin") = false := by decide
  have h4 : (toLowerCase "x-viewer-id" == "x-pin") = false := by decide
  simp [sendReplyRequest, Request.headerValues, Request.wireHeaders, List.filter,
    h1, h2, h3, h4]

theorem postCommentRequest_eq (result : Store) (relatedToId commentMessage : String) :
    postCommentRequest result relatedToId commentMessage
      = sendReplyRequest result relatedToId commentMessage := rfl

theorem createRequest_body (result : Store) (relatedToId commentMessage : String) :
    (postCommentRequest result relatedToId commentMessage).body
      = some (.obj ([
          ("comment", .obj ([("relatedToId", .str relatedToId)]
            ++ (match result.viewerId with
              | some v => [("viewerProfileId", Json.str v)]
              | none => [])
            ++ [("message", .str commentMessage)])),
          ("message", .str commentMessage),
          ("relatedToId", .str relatedToId)]
        ++ (match result.viewerId with
          | some v => [("viewerProfileId", Json.str v)]
          | none => []))) := by
  cases hv : result.viewerId <;>
    simp [postCommentRequest, stringify, stringifyProps, stringifyProp, ofOption, hv]

theorem onFetchComments_isSuccess (result : Store) (response : Response)
    (relatedToId : String) (pageNumber pageSize : Option Int)
    (ht : truthy result.apiToken = true) :
    (onMessage (.ok result) (fun _ => .responded response)
        (.fetchComments relatedToId pageNumber pageSize)).result
      = if response.ok then
          match response.json with
          | .ok data => .success data
          | .error message => .failure message
        else .failure ("Error fetching comments: " ++ response.statusText) := by
  simp only [onMessage, onFetchComments, fetchComments, ht]
  cases response.ok <;> cases response.json <;> rfl

theorem postComment_isSuccess (result : Store) (response : Response)
    (relatedToId commentMessage : String) (ht : truthy result.apiToken = true) :
    (onMessage (.ok result) (fun _ => .responded response)
        (.postComment relatedToId commentMessage)).result
      = if response.ok then
          match response.json with
          | .ok data => .success data
          | .error message => .failure message
        else .failure ("Error posting comment: " ++ response.statusText) := by
  have hok : (response.status == 201 || response.ok) = response.ok := by
    by_cases h : response.status = 201
    · simp [Response.ok, h]
    · simp [h]
  simp only [onMessage, postComment, ht, hok]
  cases response.ok <;> cases response.json <;> rfl

/-! ## The claims -/

/-- C1: with a stored credential set whose apiToken is absent or the empty
string, each of the three gateway operations (fetchComments, sendReply,
postComment), whatever its arguments and whatever the remote side would do,
answers `{ success: false, error: "No API token found in storage." }` and
invokes `fetch` zero times. -/
theorem missing_token_fails_without_fetch (result : Store) (fetch : Request → FetchReply)
    (message : Message) (h : result.apiToken = none ∨ result.apiToken = some "") :
    (onMessage (.ok result) fetch message).result
        = .failure "No API token found in storage."
      ∧ (onMessage (.ok result) fetch message).calls = [] := by
  have ht := truthy_eq_false_of_missing h
  cases message <;>
    simp [onMessage, onFetchComments, fetchComments, sendReply, postComment, ht]

theorem missing_token_fails_without_fetch_witness :
    ((({ xPin := some "" } : Store).apiToken = none
        ∨ ({ xPin := some "" } : Store).apiToken = some ""))
      ∧ (onMessage (.ok { xPin := some "" }) (fun _ => .threw "offline")
            (.fetchComments "a1" none none)).result
          = .failure "No API token found in storage."
      ∧ (onMessage (.ok { xPin := some "" }) (fun _ => .threw "offline")
            (.fetchComments "a1" none none)).calls = [] :=
  ⟨Or.inl rfl,
    missing_token_fails_without_fetch { xPin := some "" } (fun _ => .threw "offline")
      (.fetchComments "a1" none none) (Or.inl rfl)⟩

/-- C2: after the capture listener has handled any sequence of matching
requests from any store, the stored apiToken is the value of the Authorization
header (name matched case-insensitively) of the last request that carried one,
and the initial apiToken if none did; a request without an Authorization header
leaves apiToken as it was. -/
theorem capture_apiToken_last_write_wins (store : Store) (requests : List Details) :
    (captureAll store requests).apiToken =
        (match lastAuthorization requests with
          | some v => some v
          | none => store.apiToken)
      ∧ ∀ details : Details, authorizationOf details = none →
          (capture store details).apiToken = store.apiToken := by
  refine ⟨captureAll_apiToken store requests, ?_⟩
  intro details hnone
  rw [capture_apiToken, hnone]

/-- C3: for every matching request the capture listener makes exactly one
storage write; the written object contains the key xPin, with the value of the
request's x-pin header (name matched case-insensitively) when there is one and
the empty string otherwise; so the staged update set is never empty and the
branch without a write is never taken. -/
theorem capture_always_writes_xPin (details : Details) :
    onBeforeSendHeaders details = [stagedUpdates details]
      ∧ (onBeforeSendHeaders details).length = 1
      ∧ "xPin" ∈ (stagedUpdates details).keys
      ∧ (stagedUpdates details).xPin =
          some (match xPinOf details with
            | some v => v
            | none => "")
      ∧ (stagedUpdates details).keys ≠ [] := by
  have hx := stagedUpdates_xPin details
  have hmem : "xPin" ∈ (stagedUpdates details).keys := by
    simp [Updates.keys, hx]
  refine ⟨onBeforeSendHeaders_eq details, by simp [onBeforeSendHeaders_eq], hmem, ?_, ?_⟩
  · rw [hx]; cases xPinOf details <;> rfl
  · intro hnil
    rw [hnil] at hmem
    cases hmem

/-- C4: with a non-empty stored apiToken, fetchComments invokes `fetch` exactly
once, with method POST on the `/comment/search` endpoint, and the body is
exactly `{orderBy: "CreatedDate DESC", pageNumber, pageSize, relatedToId}` with
the given values, where a pageNumber or pageSize that is not supplied is 1,
respectively 20. -/
theorem fetchComments_request (result : Store) (token : String)
    (fetch : Request → FetchReply) (relatedToId : String) (pageNumber pageSize : Option Int)
    (htoken : result.apiToken = some token) (hne : token ≠ "") :
    ∃ req : Request,
      (onMessage (.ok result) fetch (.fetchComments relatedToId pageNumber pageSize)).calls
          = [req]
        ∧ req.method = "POST"
        ∧ req.url = "https://fotf.my.site.com/aio/services/apexrest/v1/comment/search"
        ∧ req.body = some (.obj [
            ("orderBy", .str "CreatedDate DESC"),
            ("pageNumber", .num (match pageNumber with
              | some n => n
              | none => 1)),
            ("pageSize", .num (match pageSize with
              | some n => n
              | none => 20)),
            ("relatedToId", .str relatedToId)]) := by
  refine ⟨fetchCommentsRequest result relatedToId (pageNumber.getD 1) (pageSize.getD 20),
    onFetchComments_calls result fetch relatedToId pageNumber pageSize
      (truthy_of_nonempty htoken hne), rfl, rfl, ?_⟩
  cases pageNumber <;> cases pageSize <;> rfl

theorem fetchComments_request_witness :
    ∃ req : Request,
      (onMessage (.ok { apiToken := some "Bearer abc", xPin := some "" })
          (fun _ => .threw "offline") (.fetchComments "X" (some 2) (some 5))).calls = [req]
        ∧ req.method = "POST"
        ∧ req.url = "https://fotf.my.site.com/aio/services/apexrest/v1/comment/search"
        ∧ req.body = some (.obj [
            ("orderBy", .str "CreatedDate DESC"),
            ("pageNumber", .num 2),
            ("pageSize", .num 5),
            ("relatedToId", .str "X")]) :=
  fetchComments_request { apiToken := some "Bearer abc", xPin := some "" } "Bearer abc"
    (fun _ => .threw "offline") "X" (some 2) (some 5) rfl (by decide)

/-- C5: for sendReply and postComment with a non-empty stored apiToken, a
response with status 201 or 200 whose body parses as JSON gives
`{ success: true, data }` with data the parsed body (the same for both
statuses), and a response with status 400 or 500 gives `{ success: false, error }`
where error is a fixed prefix followed by the response's status text. -/
theorem create_outcome_by_status (result : Store) (token : String)
    (id text : String) (response : Response)
    (htoken : result.apiToken = some token) (hne : token ≠ "") :
    (∀ data : Json, (response.status = 201 ∨ response.status = 200) →
        response.json = .ok data →
        (onMessage (.ok result) (fun _ => .responded response) (.sendReply id text)).result
            = .success data
          ∧ (onMessage (.ok result) (fun _ => .responded response) (.postComment id text)).result
            = .success data)
      ∧ ((response.status = 400 ∨ response.status = 500) →
        (onMessage (.ok result) (fun _ => .responded response) (.sendReply id text)).result
            = .failure ("Error sending reply: " ++ response.statusText)
          ∧ (onMessage (.ok result) (fun _ => .responded response) (.postComment id text)).result
            = .failure ("Error posting comment: " ++ response.statusText)) := by
  have ht := truthy_of_nonempty htoken hne
  constructor
  · intro data hstatus hjson
    have hok : (response.status == 201 || response.ok) = true := by
      rcases hstatus with h | h <;> simp [Response.ok, h]
    simp [onMessage, sendReply, postComment, ht, hok, hjson]
  · intro hstatus
    have hok : (response.status == 201 || response.ok) = false := by
      rcases hstatus with h | h <;> simp [Response.ok, h]
    simp [onMessage, sendReply, postComment, ht, hok]

theorem create_outcome_by_status_witness :
    (onMessage (.ok { apiToken := some "Bearer abc", viewerId := some "v1", xPin := some "" })
        (fun _ => .responded { status := 201, statusText := "Created", json := .ok (.str "c9") })
        (.sendReply "c1" "hi")).result = .success (.str "c9")
      ∧ (onMessage (.ok { apiToken := some "Bearer abc", viewerId := some "v1", xPin := some "" })
        (fun _ => .responded { status := 201, statusText := "Created", json := .ok (.str "c9") })
        (.postComment "c1" "hi")).result = .success (.str "c9") :=
  (create_outcome_by_status
    { apiToken := some "Bearer abc", viewerId := some "v1", xPin := some "" } "Bearer abc"
    "c1" "hi" { status := 201, statusText := "Created", json := .ok (.str "c9") }
    rfl (by decide)).1 (.str "c9") (Or.inl rfl) rfl

/-- C6, at the credential set `{ apiToken: "Bearer abc", xPin: "" }` (what the
capture listener stores from a request with an Authorization header alone):
sendReply and postComment each invoke `fetch` once with a `headers` object that
has the property x-viewer-id with the value `undefined`, sent as the text
"undefined"; fetchComments invokes `fetch` once without an x-viewer-id header. -/
theorem create_requests_send_absent_viewerId :
    captureAll {} [⟨[⟨"Authorization", "Bearer abc"⟩]⟩]
        = { apiToken := some "Bearer abc", xPin := some "" }
      ∧ (onMessage (.ok { apiToken := some "Bearer abc", xPin := some "" })
          (fun _ => .threw "offline") (.sendReply "c1" "hi")).calls.map (fun r => r.headers)
        = [[("Authorization", .str "Bearer abc"), ("x-viewer-id", .undefined),
            ("Content-Type", .str "application/json"),
            ("x-experience-name", .str "Adventures In Odyssey")]]
      ∧ (onMessage (.ok { apiToken := some "Bearer abc", xPin := some "" })
          (fun _ => .threw "offline") (.sendReply "c1" "hi")).calls.map
            (fun r => r.headerValues "x-viewer-id") = [["undefined"]]
      ∧ (onMessage (.ok { apiToken := some "Bearer abc", xPin := some "" })
          (fun _ => .threw "offline") (.postComment "p1" "hi")).calls.map
            (fun r => r.headerValues "x-viewer-id") = [["undefined"]]
      ∧ (onMessage (.ok { apiToken := some "Bearer abc", xPin := some "" })
          (fun _ => .threw "offline") (.fetchComments "p1" none none)).calls.map
            (fun r => r.headerValues "x-viewer-id") = [[]] := by
  refine ⟨by decide, rfl, by decide, by decide, by decide⟩

/-- C7: with a non-empty stored apiToken, the fetchComments request carries an
x-pin header exactly when the stored xPin is present (the empty string
included), with the stored xPin as its value; the sendReply and postComment
requests carry no x-pin header, whatever the stored xPin is. -/
theorem xPin_header_only_on_search (result : Store) (token : String)
    (fetch : Request → FetchReply) (id text : String) (pageNumber pageSize : Option Int)
    (htoken : result.apiToken = some token) (hne : token ≠ "") :
    (∃ req : Request,
        (onMessage (.ok result) fetch (.fetchComments id pageNumber pageSize)).calls = [req]
          ∧ req.headerValues "x-pin" =
              match result.xPin with
              | some v => [v]
              | none => [])
      ∧ (∃ req : Request,
        (onMessage (.ok result) fetch (.sendReply id text)).calls = [req]
          ∧ req.headerValues "x-pin" = [])
      ∧ (∃ req : Request,
        (onMessage (.ok result) fetch (.postComment id text)).calls = [req]
          ∧ req.headerValues "x-pin" = []) := by
  have ht := truthy_of_nonempty htoken hne
  refine ⟨⟨_, onFetchComments_calls result fetch id pageNumber pageSize ht,
      fetchCommentsRequest_xPin result id _ _⟩,
    ⟨_, sendReply_calls result fetch id text ht, sendReplyRequest_xPin result id text⟩,
    ⟨_, postComment_calls result fetch id text ht, ?_⟩⟩
  rw [postCommentRequest_eq]
  exact sendReplyRequest_xPin result id text

theorem xPin_header_only_on_search_witness :
    (∃ req : Request,
        (onMessage (.ok { apiToken := some "Bearer abc", xPin := some "" })
            (fun _ => .threw "offline") (.fetchComments "p1" none none)).calls = [req]
          ∧ req.headerValues "x-pin" = [""])
      ∧ (∃ req : Request,
        (onMessage (.ok { apiToken := some "Bearer abc", xPin := some "" })
            (fun _ => .threw "offline") (.sendReply "p1" "hi")).calls = [req]
          ∧ req.headerValues "x-pin" = [])
      ∧ (∃ req : Request,
        (onMessage (.ok { apiToken := some "Bearer abc", xPin := some "" })
            (fun _ => .threw "offline") (.postComment "p1" "hi")).calls = [req]
          ∧ req.headerValues "x-pin" = []) :=
  xPin_header_only_on_search { apiToken := some "Bearer abc", xPin := some "" } "Bearer abc"
    (fun _ => .threw "offline") "p1" "hi" none none rfl (by decide)

/-- C8 fails as stated: with the credential set `{ apiToken: "Bearer abc", xPin: "" }`
(no viewerId), the body postComment sends for relatedToId "p1" and message
"hi" has the three top-level fields comment, message, relatedToId, and its
comment has the two fields relatedToId, message: no viewerProfileId at either level. -/
theorem postComment_body_without_viewerId :
    (onMessage (.ok { apiToken := some "Bearer abc", xPin := some "" })
        (fun _ => .threw "offline") (.postComment "p1" "hi")).calls.map (fun r => r.body)
      = [some (.obj [
          ("comment", .obj [("relatedToId", .str "p1"), ("message", .str "hi")]),
          ("message", .str "hi"),
          ("relatedToId", .str "p1")])]
    ∧ (onMessage (.ok { apiToken := some "Bearer abc", xPin := some "" })
        (fun _ => .threw "offline") (.postComment "p1" "hi")).calls.map
          (fun r => r.body.map Json.keys)
      ≠ [some ["comment", "message", "relatedToId", "viewerProfileId"]] := by
  refine ⟨rfl, by decide⟩

/-- C8 amended: with a non-empty stored apiToken, postComment invokes `fetch`
once and the body has, in this order, the top-level fields comment, message,
relatedToId and, when the stored viewerId is present, viewerProfileId; comment
has the fields relatedToId, viewerProfileId (when the stored viewerId is
present) and message; relatedToId is the request's relatedToId, message the
request's commentMessage unmodified, viewerProfileId the stored viewerId, the
nested fields equal to their top-level duplicates. When the stored viewerId is
absent, viewerProfileId is missing at both levels. -/
theorem postComment_body (result : Store) (token : String)
    (fetch : Request → FetchReply) (relatedToId commentMessage : String)
    (htoken : result.apiToken = some token) (hne : token ≠ "") :
    ∃ req : Request,
      (onMessage (.ok result) fetch (.postComment relatedToId commentMessage)).calls = [req]
        ∧ req.body = some (.obj ([
            ("comment", .obj ([("relatedToId", .str relatedToId)]
              ++ (match result.viewerId with
                | some v => [("viewerProfileId", Json.str v)]
                | none => [])
              ++ [("message", .str commentMessage)])),
            ("message", .str commentMessage),
            ("relatedToId", .str relatedToId)]
          ++ (match result.viewerId with
            | some v => [("viewerProfileId", Json.str v)]
            | none => []))) :=
  ⟨_, postComment_calls result fetch relatedToId commentMessage
      (truthy_of_nonempty htoken hne),
    createRequest_body result relatedToId commentMessage⟩

theorem postComment_body_witness :
    ∃ req : Request,
      (onMessage (.ok { apiToken := some "Bearer abc", viewerId := some "v1", xPin := some "" })
          (fun _ => .threw "offline") (.postComment "p1" "hi")).calls = [req]
        ∧ req.body = some (.obj [
            ("comment", .obj [("relatedToId", .str "p1"), ("viewerProfileId", .str "v1"),
              ("message", .str "hi")]),
            ("message", .str "hi"),
            ("relatedToId", .str "p1"),
            ("viewerProfileId", .str "v1")]) :=
  postComment_body { apiToken := some "Bearer abc", viewerId := some "v1", xPin := some "" }
    "Bearer abc" (fun _ => .threw "offline") "p1" "hi" rfl (by decide)

/-- C9: for every id, message, outcome of the storage read and remote side,
sendReply with commentId = id and replyMessage = text makes exactly the `fetch`
invocations (URL, method, headers, body) that postComment makes with
relatedToId = id and commentMessage = text, that single request goes by POST to
the `/comment` endpoint, and the two answers have the same `success` flag and,
on success, the same data. -/
theorem sendReply_refines_postComment (get : StorageGet) (fetch : Request → FetchReply)
    (id text : String) :
    (onMessage get fetch (.sendReply id text)).calls
        = (onMessage get fetch (.postComment id text)).calls
      ∧ (∀ req ∈ (onMessage get fetch (.sendReply id text)).calls,
          req.method = "POST"
            ∧ req.url = "https://fotf.my.site.com/aio/services/apexrest/v1/comment")
      ∧ (onMessage get fetch (.sendReply id text)).result.isSuccess
        = (onMessage get fetch (.postComment id text)).result.isSuccess
      ∧ ∀ data : Json,
          (onMessage get fetch (.sendReply id text)).result = .success data
            ↔ (onMessage get fetch (.postComment id text)).result = .success data := by
  cases get with
  | failed lastError =>
    simp [onMessage, sendReply, postComment, Outcome.isSuccess]
  | ok result =>
    simp only [onMessage, sendReply, postComment, postCommentRequest_eq]
    cases truthy result.apiToken with
    | false => simp [Outcome.isSuccess]
    | true =>
      simp only [Bool.not_true, Bool.false_eq_true, if_false]
      cases fetch (sendReplyRequest result id text) with
      | threw message => simp [Outcome.isSuccess, sendReplyRequest, commentUrl]
      | responded response =>
        dsimp only
        by_cases hc : (response.status == 201 || response.ok) = true
        · rw [if_pos hc, if_pos hc]
          cases response.json <;> simp [Outcome.isSuccess, sendReplyRequest, commentUrl]
        · rw [if_neg hc, if_neg hc]
          simp [Outcome.isSuccess, sendReplyRequest, commentUrl]

/-- C10 fails as stated: with `response.ok` the test that the status is in
200..299, no response is treated as success by postComment and as failure by
fetchComments, whatever the outcome of the storage read and the arguments. -/
theorem postComment_success_not_broader :
    ¬ ∃ (get : StorageGet) (response : Response) (relatedToId commentMessage : String)
        (pageNumber pageSize : Option Int),
        (onMessage get (fun _ => .responded response)
            (.postComment relatedToId commentMessage)).result.isSuccess = true
          ∧ (onMessage get (fun _ => .responded response)
              (.fetchComments relatedToId pageNumber pageSize)).result.isSuccess = false := by
  rintro ⟨get, response, relatedToId, commentMessage, pageNumber, pageSize, hpost, hfetch⟩
  cases get with
  | failed lastError => simp [onMessage, postComment, Outcome.isSuccess] at hpost
  | ok result =>
    cases ht : truthy result.apiToken with
    | false => simp [onMessage, postComment, ht, Outcome.isSuccess] at hpost
    | true =>
      rw [postComment_isSuccess result response relatedToId commentMessage ht] at hpost
      rw [onFetchComments_isSuccess result response relatedToId pageNumber pageSize ht] at hfetch
      cases hok : response.ok <;> cases hjson : response.json <;>
        simp [hok, hjson, Outcome.isSuccess] at hpost hfetch

/-- C10 amended: with a non-empty stored apiToken and `response.ok` the test
that the status is in 200..299, postComment and fetchComments treat the same
responses as success: for every response and every document, postComment
answers success with that data exactly when fetchComments does, which is
exactly when the status is in 200..299 and the body parses to that document. -/
theorem postComment_success_iff_fetchComments (result : Store) (token : String)
    (response : Response) (relatedToId commentMessage : String)
    (pageNumber pageSize : Option Int)
    (htoken : result.apiToken = some token) (hne : token ≠ "") :
    ∀ data : Json,
      ((onMessage (.ok result) (fun _ => .responded response)
          (.postComment relatedToId commentMessage)).result = .success data
        ↔ (onMessage (.ok result) (fun _ => .responded response)
          (.fetchComments relatedToId pageNumber pageSize)).result = .success data)
      ∧ ((onMessage (.ok result) (fun _ => .responded response)
          (.postComment relatedToId commentMessage)).result = .success data
        ↔ (200 ≤ response.status ∧ response.status ≤ 299) ∧ response.json = .ok data) := by
  have ht := truthy_of_nonempty htoken hne
  intro data
  rw [postComment_isSuccess result response relatedToId commentMessage ht,
    onFetchComments_isSuccess result response relatedToId pageNumber pageSize ht]
  by_cases hok : response.ok = true
  · have hr : 200 ≤ response.status ∧ response.status ≤ 299 := by
      simpa [Response.ok] using hok
    cases hjson : response.json <;> simp [hok, hr]
  · have hr : ¬ (200 ≤ response.status ∧ response.status ≤ 299) := by
      simpa [Response.ok] using hok
    simp [hok, hr]

theorem postComment_success_iff_fetchComments_witness :
    ((onMessage (.ok { apiToken := some "Bearer abc", xPin := some "" })
        (fun _ => .responded { status := 201, statusText := "Created", json := .ok (.str "c9") })
        (.postComment "p1" "hi")).result = .success (.str "c9")
      ↔ (onMessage (.ok { apiToken := some "Bearer abc", xPin := some "" })
        (fun _ => .responded { status := 201, statusText := "Created", json := .ok (.str "c9") })
        (.fetchComments "p1" none none)).result = .success (.str "c9"))
    ∧ ((onMessage (.ok { apiToken := some "Bearer abc", xPin := some "" })
        (fun _ => .responded { status := 201, statusText := "Created", json := .ok (.str "c9") })
        (.postComment "p1" "hi")).result = .success (.str "c9")
      ↔ (200 ≤ 201 ∧ 201 ≤ 299) ∧ (Except.ok (Json.str "c9") : Except String Json)
          = .ok (.str "c9")) :=
  postComment_success_iff_fetchComments { apiToken := some "Bearer abc", xPin := some "" }
    "Bearer abc" { status := 201, statusText := "Created", json := .ok (.str "c9") }
    "p1" "hi" none none rfl (by decide) (.str "c9")

/-! ## Word filter of the popup page -/

/-- The helper for `Array.prototype.some` is `List.any` of `commentContainsWord`. -/
theorem someContainsWord_eq_any {R : Type} (js : JSRuntime R) (filterWord : String)
    (replies : List Comment) :
    someContainsWord js replies filterWord
      = replies.any (fun r => commentContainsWord js r filterWord) := by
  induction replies with
  | nil => simp [someContainsWord]
  | cons reply rest ih => simp [someContainsWord, ih]

/-- The inline predicate of `renderCommentsWrapper` agrees with
`commentContainsWord` applied to the top-level comment. -/
theorem inline_predicate_eq {R : Type} (js : JSRuntime R) (filterWord : String)
    (c : Comment) :
    (includes (js.toLowerCase c.message) filterWord ||
        (match c.comments with
          | some replies => replies.any (fun r => commentContainsWord js r filterWord)
          | none => false))
      = commentContainsWord js c filterWord := by
  cases c with
  | mk id message viewerProfileId comments =>
    cases comments with
    | none =>
      cases h : includes (js.toLowerCase message) filterWord <;>
        simp [commentContainsWord, Comment.message, Comment.comments, h]
    | some replies =>
      cases replies with
      | nil =>
        cases h : includes (js.toLowerCase message) filterWord <;>
          simp [commentContainsWord, Comment.message, Comment.comments, h]
      | cons reply rest =>
        cases h : includes (js.toLowerCase message) filterWord <;>
          simp [commentContainsWord, Comment.message, Comment.comments, h,
            someContainsWord_eq_any]

/-- The constant `filtered` is the input filtered by `commentContainsWord` when
the word is non-empty, and the input itself when the word is empty. -/
theorem filtered_eq {R : Type} (js : JSRuntime R) (comments : List Comment)
    (filterWord : String) :
    filtered js comments filterWord
      = if filterWord = "" then comments
        else comments.filter (fun c => commentContainsWord js c filterWord) := by
  unfold filtered
  by_cases hw : filterWord = ""
  · simp [hw]
  · simp only [bne_iff_ne, ne_eq, hw, not_false_eq_true, if_true, if_false]
    congr 1
    funext c
    exact inline_predicate_eq js filterWord c

mutual
/-- `commentContainsWord` holds exactly when the lower-cased message of the
comment or of a nested reply at some depth contains the word. -/
theorem commentContainsWord_iff {R : Type} (js : JSRuntime R) (filterWord : String) :
    ∀ c : Comment, commentContainsWord js c filterWord = true
      ↔ ∃ n ∈ c.nodes, includes (js.toLowerCase n.message) filterWord = true
  | .mk id message viewerProfileId none => by
    cases h : includes (js.toLowerCase message) filterWord <;>
      simp [commentContainsWord, Comment.nodes, Comment.message, h]
  | .mk id message viewerProfileId (some replies) => by
    have ih := someContainsWord_iff js filterWord replies
    cases h : includes (js.toLowerCase message) filterWord
    · cases replies with
      | nil => simp [commentContainsWord, Comment.nodes, nodesOfAll, Comment.message, h]
      | cons reply rest =>
        simp only [commentContainsWord, Comment.nodes, h, List.length_cons,
          Nat.zero_lt_succ, if_true, Bool.false_eq_true, if_false, List.mem_cons,
          exists_eq_or_imp, Comment.message, false_or]
        exact ih
    · simp [commentContainsWord, Comment.nodes, Comment.message, h]
/-- The same for the replies of a comment. -/
theorem someContainsWord_iff {R : Type} (js : JSRuntime R) (filterWord : String) :
    ∀ replies : List Comment, someContainsWord js replies filterWord = true
      ↔ ∃ n ∈ nodesOfAll replies, includes (js.toLowerCase n.message) filterWord = true
  | [] => by simp [someContainsWord, nodesOfAll]
  | reply :: rest => by
    have ih1 := commentContainsWord_iff js filterWord reply
    have ih2 := someContainsWord_iff js filterWord rest
    simp only [someContainsWord, nodesOfAll, Bool.or_eq_true, List.mem_append, ih1, ih2]
    constructor
    · rintro (⟨n, hn, h⟩ | ⟨n, hn, h⟩)
      · exact ⟨n, Or.inl hn, h⟩
      · exact ⟨n, Or.inr hn, h⟩
    · rintro ⟨n, hn | hn, h⟩
      · exact Or.inl ⟨n, hn, h⟩
      · exact Or.inr ⟨n, hn, h⟩
end

/-- When the word is empty or `new RegExp` accepts the pattern built from it,
`highlightWord` returns. -/
theorem highlightWord_ok {R : Type} (js : JSRuntime R) (text filterWord : String)
    (hre : filterWord = "" ∨ ∃ regex, js.newRegExp ("(" ++ filterWord ++ ")") "gi" = .ok regex) :
    ∃ html, highlightWord js text filterWord = .ok html := by
  unfold highlightWord
  by_cases hw : filterWord = ""
  · simp [hw]
  · rcases hre with h | ⟨regex, h⟩
    · exact absurd h hw
    · simp [hw, h]

mutual
/-- When the word is empty or `new RegExp` accepts the pattern built from it,
`renderComment` returns an element of the comment it was given. -/
theorem renderComment_ok {R : Type} (js : JSRuntime R) (currentViewerId : Option String)
    (filterWord : String)
    (hre : filterWord = "" ∨ ∃ regex, js.newRegExp ("(" ++ filterWord ++ ")") "gi" = .ok regex) :
    ∀ (c : Comment) (isReply : Bool),
      ∃ element, renderComment js c isReply currentViewerId filterWord = .ok element
        ∧ element.comment = c
  | .mk id message viewerProfileId none, isReply => by
    obtain ⟨html, hh⟩ := highlightWord_ok js message filterWord hre
    by_cases hw : filterWord = ""
    · subst hw
      simp [renderComment, Rendered.comment]
    · simp [renderComment, hw, hh, Rendered.comment]
  | .mk id message viewerProfileId (some replies), isReply => by
    obtain ⟨html, hh⟩ := highlightWord_ok js message filterWord hre
    obtain ⟨elements, he, _⟩ := renderReplies_ok js currentViewerId filterWord hre replies
    by_cases hw : filterWord = ""
    · subst hw
      by_cases hl : replies.length > 0 <;> simp [renderComment, he, hl, Rendered.comment]
    · by_cases hl : replies.length > 0 <;>
        simp [renderComment, hw, hh, he, hl, Rendered.comment]
/-- The same for the loop over the replies. -/
theorem renderReplies_ok {R : Type} (js : JSRuntime R) (currentViewerId : Option String)
    (filterWord : String)
    (hre : filterWord = "" ∨ ∃ regex, js.newRegExp ("(" ++ filterWord ++ ")") "gi" = .ok regex) :
    ∀ replies : List Comment,
      ∃ elements, renderReplies js replies currentViewerId filterWord = .ok elements
        ∧ elements.map Rendered.comment = replies
  | [] => ⟨[], by simp [renderReplies]⟩
  | reply :: rest => by
    obtain ⟨element, he, hc⟩ := renderComment_ok js currentViewerId filterWord hre reply true
    obtain ⟨elements, hes, hcs⟩ := renderReplies_ok js currentViewerId filterWord hre rest
    exact ⟨element :: elements, by simp [renderReplies, he, hes], by simp [hc, hcs]⟩
end

/-- When `renderComment` returns for every word-and-comment at hand, the loop
appends one element per comment, in order, and nothing is thrown. -/
theorem appendEach_ok {R : Type} (js : JSRuntime R) (currentViewerId : Option String)
    (filterWord : String)
    (hre : filterWord = "" ∨ ∃ regex, js.newRegExp ("(" ++ filterWord ++ ")") "gi" = .ok regex)
    (comments : List Comment) :
    (appendEach js comments currentViewerId filterWord).thrown = none
      ∧ (appendEach js comments currentViewerId filterWord).children.map Rendered.comment
        = comments := by
  induction comments with
  | nil => simp [appendEach]
  | cons c rest ih =>
    obtain ⟨element, he, hc⟩ := renderComment_ok js currentViewerId filterWord hre c false
    simp [appendEach, he, hc, ih.1, ih.2]

/-- What `renderCommentsWrapper` does when the word is empty or `new RegExp`
accepts the pattern built from it: nothing is thrown, and the container holds
one element per input comment for which `commentContainsWord` holds (every
input comment when the word is empty), in the order of the input. -/
theorem renderCommentsWrapper_ok {R : Type} (js : JSRuntime R) (comments : List Comment)
    (currentViewerId : Option String) (filterWord : String)
    (hre : filterWord = "" ∨ ∃ regex, js.newRegExp ("(" ++ filterWord ++ ")") "gi" = .ok regex) :
    (renderCommentsWrapper js comments currentViewerId filterWord).thrown = none
      ∧ (renderCommentsWrapper js comments currentViewerId filterWord).children.map
          Rendered.comment
        = (if filterWord = "" then comments
            else comments.filter (fun c => commentContainsWord js c filterWord)) := by
  unfold renderCommentsWrapper
  have h := appendEach_ok js currentViewerId filterWord hre (filtered js comments filterWord)
  rw [filtered_eq] at h
  rw [filtered_eq]
  exact h

/-- When the word is non-empty and `new RegExp` throws on the pattern built from
it, `renderComment` throws for every comment. -/
theorem renderComment_throws {R : Type} (js : JSRuntime R) (currentViewerId : Option String)
    (filterWord thrown : String) (hw : filterWord ≠ "")
    (hre : js.newRegExp ("(" ++ filterWord ++ ")") "gi" = .error thrown)
    (c : Comment) (isReply : Bool) :
    renderComment js c isReply currentViewerId filterWord = .error thrown := by
  have hb : (filterWord != "") = true := by simpa using hw
  have hh : ∀ text, highlightWord js text filterWord = .error thrown := by
    intro text
    simp [highlightWord, hw, hre]
  cases c with
  | mk id message viewerProfileId comments =>
    unfold renderComment
    simp only [hb, hh]
    rfl

/-- When the word is non-empty and `new RegExp` throws on the pattern built from
it, `renderCommentsWrapper` leaves the container empty and throws as soon as
one comment passes the filter. -/
theorem renderCommentsWrapper_throws {R : Type} (js : JSRuntime R) (comments : List Comment)
    (currentViewerId : Option String) (filterWord thrown : String) (hw : filterWord ≠ "")
    (hre : js.newRegExp ("(" ++ filterWord ++ ")") "gi" = .error thrown)
    (hsome : ∃ c ∈ comments, commentContainsWord js c filterWord = true) :
    renderCommentsWrapper js comments currentViewerId filterWord
      = { children := [], thrown := some thrown } := by
  unfold renderCommentsWrapper
  rw [filtered_eq]
  simp only [hw, if_false]
  obtain ⟨c, hc, hcw⟩ := hsome
  have hmem : c ∈ comments.filter (fun c => commentContainsWord js c filterWord) :=
    List.mem_filter.mpr ⟨hc, hcw⟩
  cases hf : comments.filter (fun c => commentContainsWord js c filterWord) with
  | nil => rw [hf] at hmem; cases hmem
  | cons first rest =>
    simp [appendEach, renderComment_throws js currentViewerId filterWord thrown hw hre]

/-- C11 at the filter word "(" and the single comment with message "see (1)":
on a JS engine that lower-cases "see (1)" to itself and whose `new RegExp`
throws on the pattern "(()" (as `highlightWord` builds it from the word),
`commentContainsWord` holds for the comment, yet `renderCommentsWrapper` throws
from `renderComment` and leaves the container without any element. -/
theorem renderCommentsWrapper_renders_nothing_on_open_paren {R : Type} (js : JSRuntime R)
    (thrown : String)
    (hlower : js.toLowerCase "see (1)" = "see (1)")
    (hre : js.newRegExp "(()" "gi" = .error thrown) :
    commentContainsWord js (.mk "c1" "see (1)" "v1" none) "(" = true
      ∧ renderCommentsWrapper js [.mk "c1" "see (1)" "v1" none] (some "v1") "("
        = { children := [], thrown := some thrown } := by
  have hcw : commentContainsWord js (.mk "c1" "see (1)" "v1" none) "(" = true := by
    have hinc : includes "see (1)" "(" = true := by decide
    simp [commentContainsWord, hlower, hinc]
  have hpattern : "(" ++ "(" ++ ")" = "(()" := by decide
  refine ⟨hcw, renderCommentsWrapper_throws js _ _ "(" thrown (by decide) ?_
    ⟨_, List.mem_singleton.mpr rfl, hcw⟩⟩
  rw [hpattern]
  exact hre

theorem renderCommentsWrapper_renders_nothing_on_open_paren_witness :
    commentContainsWord sampleRuntime (.mk "c1" "see (1)" "v1" none) "(" = true
      ∧ renderCommentsWrapper sampleRuntime [.mk "c1" "see (1)" "v1" none] (some "v1") "("
        = { children := [],
            thrown := some "Invalid regular expression: /(()/: Unterminated group" } :=
  renderCommentsWrapper_renders_nothing_on_open_paren sampleRuntime
    "Invalid regular expression: /(()/: Unterminated group" (by decide) rfl

end CommentToolkit
